import Mathlib

/-!
Verification development for the `CommitmentEnforcer` middleware of the
DoganAiFactori proxy (`src/proxy/server-simple.js`).  The JavaScript code is
shallowly embedded: JS numbers are modelled by `JsNum` (a rational or NaN),
JS strings by Lean `String` (sequences of Unicode code points; every string
appearing in the program is in the Basic Multilingual Plane, where JS UTF-16
lengths agree with code-point counts), JS `null`/`undefined` results by
`Option`, and the enforcer's mutable fields by an explicit `EnforcerState`.
-/

namespace DoganAiFactori

/-- A JavaScript number as it occurs in the enforcer: either an ordinary
(rational) value or `NaN`.  Infinities never arise in this code: every
division with a zero denominator also has a zero numerator (`0/0` is `NaN`
in JS). -/
inductive JsNum where
  | num (q : Rat)
  | nan
deriving DecidableEq, Repr

/-- JS addition: `NaN` propagates. -/
def jsAdd : JsNum → JsNum → JsNum
  | .num a, .num b => .num (a + b)
  | _, _ => .nan

/-- JS multiplication: `NaN` propagates (even `NaN * 0` is `NaN`). -/
def jsMul : JsNum → JsNum → JsNum
  | .num a, .num b => .num (a * b)
  | _, _ => .nan

/-- JS subtraction: `NaN` propagates. -/
def jsSub : JsNum → JsNum → JsNum
  | .num a, .num b => .num (a - b)
  | _, _ => .nan

/-- JS division of two ordinary numbers.  A zero denominator gives `NaN`:
in this program the numerator is a count bounded by the denominator, so the
`x/0 = Infinity` case of JS never occurs, only `0/0 = NaN`. -/
def jsDiv (a b : Rat) : JsNum :=
  if b = 0 then .nan else .num (a / b)

/-- JS division where both operands may already be `NaN`. -/
def jsDivJ : JsNum → JsNum → JsNum
  | .num a, .num b => jsDiv a b
  | _, _ => .nan

/-- `Math.min(c, x)`: `NaN` propagates. -/
def jsMinC (c : Rat) : JsNum → JsNum
  | .num q => .num (min c q)
  | .nan => .nan

/-- The JS comparison `score >= target`; false when the score is `NaN`. -/
def jsGeTarget (s : JsNum) (t : Rat) : Bool :=
  match s with
  | .num q => decide (t ≤ q)
  | .nan => false

/-- The JS comparison `score <= target`; false when the score is `NaN`. -/
def jsLeTarget (s : JsNum) (t : Rat) : Bool :=
  match s with
  | .num q => decide (q ≤ t)
  | .nan => false

/-- The JS comparison `x < c`; false when `x` is `NaN`. -/
def jsLtC (s : JsNum) (c : Rat) : Bool :=
  match s with
  | .num q => decide (q < c)
  | .nan => false

/-- Does `pat` occur as a contiguous run somewhere in the character list? -/
def hasSubstringAux (pat : List Char) : List Char → Bool
  | [] => pat.isEmpty
  | c :: rest => pat.isPrefixOf (c :: rest) || hasSubstringAux pat rest

/-- JS `String.prototype.includes`: substring containment (the empty string
is contained in every string, as in JS). -/
def jsIncludes (s sub : String) : Bool :=
  hasSubstringAux sub.toList s.toList

/-- JS `String.prototype.toLowerCase` restricted to the alphabets this
program compares: ASCII letters are lowered, Arabic letters (which are
caseless in Unicode) are untouched, exactly as in JS. -/
def jsToLower (s : String) : String :=
  ⟨s.toList.map Char.toLower⟩

/-- Splitting on a single separator character, accumulating the current
field in reverse. -/
def jsSplitCharAux (sep : Char) : List Char → List Char → List String
  | [], cur => [⟨cur.reverse⟩]
  | c :: rest, cur =>
      if c == sep then (⟨cur.reverse⟩ : String) :: jsSplitCharAux sep rest []
      else jsSplitCharAux sep rest (c :: cur)

/-- JS `String.prototype.split` with a one-character separator: consecutive
separators yield empty fields and the empty string splits to `[""]`. -/
def jsSplitChar (s : String) (sep : Char) : List String :=
  jsSplitCharAux sep s.toList []

/-- JS `String.prototype.startsWith`. -/
def jsStartsWith (s pat : String) : Bool :=
  pat.toList.isPrefixOf s.toList

/-- Global, left-to-right, non-overlapping replacement of a (non-empty)
pattern, with enough fuel to scan the whole list: each step consumes at
least one character, so `fuel = length` never runs out. -/
def jsReplaceFuel (pat repl : List Char) : Nat → List Char → List Char
  | 0, l => l
  | _ + 1, [] => []
  | fuel + 1, c :: rest =>
      if pat.isPrefixOf (c :: rest) then
        repl ++ jsReplaceFuel pat repl fuel ((c :: rest).drop pat.length)
      else
        c :: jsReplaceFuel pat repl fuel rest

/-- JS `String.prototype.replace` with a global literal pattern. -/
def jsReplaceAll (s pat repl : String) : String :=
  ⟨jsReplaceFuel pat.toList repl.toList s.length s.toList⟩

/-- Whitespace characters relevant to the `\s` class and `trim` for the
strings this program builds (space, tab, newline, carriage return, form
feed, vertical tab). -/
def jsIsWhitespace (c : Char) : Bool :=
  c == ' ' || c == '\t' || c == '\n' || c == '\r' || c == '\x0b' || c == '\x0c'

/-- Collapse consecutive spaces to a single space (used after mapping every
whitespace character to a space, this implements `replace(/\s+/g, ' ')`). -/
def squeezeSpaces : List Char → List Char
  | [] => []
  | [c] => [c]
  | a :: b :: rest =>
      if a == ' ' && b == ' ' then squeezeSpaces (b :: rest)
      else a :: squeezeSpaces (b :: rest)

/-- JS `String.prototype.trim`. -/
def jsTrim (s : String) : String :=
  ⟨((s.toList.dropWhile (fun c => jsIsWhitespace c)).reverse.dropWhile
      (fun c => jsIsWhitespace c)).reverse⟩

/-- A character of the Arabic block, the regex class `[؀-ۿ]`. -/
def isArabicChar (c : Char) : Bool :=
  decide (0x600 ≤ c.toNat) && decide (c.toNat ≤ 0x6FF)

/-- A character of the regex class `[ا-ي]` (U+0627 to U+064A). -/
def isArabicLetter (c : Char) : Bool :=
  decide (0x627 ≤ c.toNat) && decide (c.toNat ≤ 0x64A)

/-- Number of non-overlapping matches of `/ال[ا-ي]/g`: the definite-article
pattern, scanned left to right, consuming three characters per match. -/
def countDefArticle : List Char → Nat
  | a :: l :: c :: rest =>
      if a == 'ا' && l == 'ل' && isArabicLetter c then
        1 + countDefArticle rest
      else
        countDefArticle (l :: c :: rest)
  | _ => 0

/-- Number of matches of `/[ا-ي]ة$/g`: at most one, anchored at the end. -/
def countFeminineEnding (l : List Char) : Nat :=
  match l.reverse with
  | 'ة' :: c :: _ => if isArabicLetter c then 1 else 0
  | _ => 0

/-- Number of matches of `/[ا-ي]ين$/g`: at most one, anchored at the end. -/
def countMasculinePlural (l : List Char) : Nat :=
  match l.reverse with
  | 'ن' :: 'ي' :: c :: _ => if isArabicLetter c then 1 else 0
  | _ => 0

/-- Number of matches of `/[ا-ي]ات$/g`: at most one, anchored at the end. -/
def countFemininePlural (l : List Char) : Nat :=
  match l.reverse with
  | 'ت' :: 'ا' :: c :: _ => if isArabicLetter c then 1 else 0
  | _ => 0

/-- The regex test `/\d+\./.test(s)`: true iff some digit is immediately
followed, possibly after more digits, by a dot — equivalently some digit is
immediately followed by a dot. -/
def hasDigitDot : List Char → Bool
  | c :: d :: rest => (c.isDigit && d == '.') || hasDigitDot (d :: rest)
  | _ => false

/-- One commitment rule, as written in the `AGENT_COMMITMENTS` literal:
`{target, enforcement, fallback, validation}`. -/
structure RuleSpec where
  target : Rat
  enforcement : String
  fallback : String
  validation : String
deriving DecidableEq, Repr

/-- The per-request `metadata` object.  Only the properties the enforcer
reads are modelled; `none` is JS `undefined`. -/
structure Metadata where
  responseTime : Option Rat := none
  message : Option String := none
  agent : Option String := none
deriving DecidableEq, Repr

/-- The per-rule `result` object built by `checkCommitment`. -/
structure Outcome where
  commitmentType : String
  passed : Bool
  score : JsNum
  target : Rat
  enforcement : String
deriving DecidableEq, Repr

/-- The `enforcement` object built by `applyEnforcement`.  `adjustedResponse`
is an `Option` because the `cached_response` branch stores the cache-lookup
result, which is `null` on a miss. -/
structure Adjustment where
  success : Bool
  action : String
  adjustedResponse : Option String
  enforcementType : String
deriving DecidableEq, Repr

/-- The `enforcementResults` report built by `enforcePreResponse`. -/
structure EnforcementResults where
  passed : Bool
  violations : List Outcome
  adjustments : List Adjustment
  finalResponse : String
deriving DecidableEq, Repr

/-- The commitment table `AGENT_COMMITMENTS`: three agents, each with an
ordered list of (commitment type, rule); list order is the insertion order
of the object literal, which is the iteration order of `Object.entries`. -/
def AGENT_COMMITMENTS : List (String × List (String × RuleSpec)) :=
  [("المحاسب الذكي",
      [("accuracy", ⟨999/10, "STRICT", "human_review", "financial_calculation_check"⟩),
       ("responseTime", ⟨2000, "STRICT", "cached_response", "performance_monitor"⟩),
       ("zatcaCompliance", ⟨100, "MANDATORY", "compliance_template", "zatca_validator"⟩),
       ("arabicQuality", ⟨95, "STRICT", "language_correction", "arabic_nlp_check"⟩)]),
   ("السكرتير الرقمي",
      [("organizationQuality", ⟨100, "STRICT", "structured_template", "organization_check"⟩),
       ("bilingualSupport", ⟨100, "MANDATORY", "translation_service", "language_detection"⟩),
       ("professionalTone", ⟨98, "STRICT", "tone_adjustment", "sentiment_analysis"⟩)]),
   ("المبرمج المساعد",
      [("codeQuality", ⟨95, "STRICT", "code_review", "static_analysis"⟩),
       ("securityCompliance", ⟨100, "MANDATORY", "security_template", "security_scanner"⟩),
       ("multiLanguageSupport", ⟨100, "MANDATORY", "language_detection", "syntax_validator"⟩)])]

/-- `checkFactualConsistency`: the source returns the fixed placeholder 95. -/
def checkFactualConsistency (_response : String) : JsNum :=
  .num 95

/-- `checkContextRelevance`: fraction of message words (with exact-word
reappearance in the response and length above 3) over all message words,
times 100, capped at 100. -/
def checkContextRelevance (response message : String) : JsNum :=
  let messageWords := jsSplitChar (jsToLower message) ' '
  let responseWords := jsSplitChar (jsToLower response) ' ' 
  let commonWords := messageWords.filter
    (fun word => responseWords.contains word && decide (word.length > 3))
  jsMinC 100 (jsMul (jsDiv (commonWords.length : Rat) (messageWords.length : Rat)) (.num 100))

/-- The `expertiseKeywords` table of `checkAgentExpertise`. -/
def expertiseKeywords : List (String × List String) :=
  [("المحاسب الذكي", ["محاسبة", "فاتورة", "ضريبة", "مالي", "زاتكا"]),
   ("السكرتير الرقمي", ["موعد", "رسالة", "تنظيم", "مهمة", "جدولة"]),
   ("المبرمج المساعد", ["كود", "برمجة", "تطوير", "تطبيق", "خوارزمية"])]

/-- `checkAgentExpertise`: fraction of the agent's keyword set found in the
lower-cased response, times 100.  For an agent without a keyword set the
keyword list is empty and `0/0` gives `NaN`. -/
def checkAgentExpertise (response agent : String) : JsNum :=
  let keywords := (expertiseKeywords.lookup agent).getD []
  let matchedKeywords := keywords.filter (fun keyword => jsIncludes (jsToLower response) keyword)
  jsMul (jsDiv (matchedKeywords.length : Rat) (keywords.length : Rat)) (.num 100)

/-- `validateAccuracy`: the average of the three accuracy sub-checks, in
their source order. -/
def validateAccuracy (response message agent : String) : JsNum :=
  let scores := [checkFactualConsistency response,
                 checkContextRelevance response message,
                 checkAgentExpertise response agent]
  jsDivJ (scores.foldl jsAdd (.num 0)) (.num (scores.length : Rat))

/-- The `zatcaKeywords` list of `validateZatcaCompliance`. -/
def zatcaKeywords : List String :=
  ["ضريبة القيمة المضافة", "الرقم الضريبي", "فاتورة ضريبية",
   "زاتكا", "ZATCA", "VAT", "Tax Invoice"]

/-- `validateZatcaCompliance`: 100 when the message mentions no invoice
(not applicable); otherwise 100 iff some ZATCA keyword appears in the
lower-cased response, else 0. -/
def validateZatcaCompliance (response message : String) : JsNum :=
  if !(jsIncludes (jsToLower message) "فاتورة") && !(jsIncludes (jsToLower message) "invoice") then
    .num 100
  else if zatcaKeywords.any (fun keyword => jsIncludes (jsToLower response) (jsToLower keyword)) then
    .num 100
  else
    .num 0

/-- `checkArabicGrammar`: ten points per regex match over the four grammar
patterns, capped at 100. -/
def checkArabicGrammar (text : String) : Rat :=
  let grammarMatches := countDefArticle text.toList + countFeminineEnding text.toList
    + countMasculinePlural text.toList + countFemininePlural text.toList
  min 100 ((grammarMatches : Rat) * 10)

/-- `checkArabicStructure`: 50 points for Arabic punctuation `[،؛؟!.]`, 50
points for the (character-class) connector test `[و|أو|لكن|إذا|عندما]`,
which as written matches any single one of the characters
`و | أ ل ك ن إ ذ ا ع د م`. -/
def checkArabicStructure (text : String) : Rat :=
  let hasProperPunctuation := text.toList.any
    (fun c => c == '،' || c == '؛' || c == '؟' || c == '!' || c == '.')
  let hasConnectors := text.toList.any
    (fun c => c == 'و' || c == '|' || c == 'أ' || c == 'ل' || c == 'ك' || c == 'ن'
      || c == 'إ' || c == 'ذ' || c == 'ا' || c == 'ع' || c == 'د' || c == 'م')
  (if hasProperPunctuation then 50 else 0) + (if hasConnectors then 50 else 0)

/-- `validateArabicQuality`: Arabic-character fraction of the response times
40, plus grammar score times 30, plus structure score times 30.  For the
empty response the fraction is the JS division `0/0`, i.e. `NaN`, which
propagates through the sum. -/
def validateArabicQuality (response : String) : JsNum :=
  let arabicChars := (response.toList.filter isArabicChar).length
  let totalChars := response.length
  let arabicShare := jsDiv (arabicChars : Rat) (totalChars : Rat)
  let grammarScore := checkArabicGrammar response
  let structureScore := checkArabicStructure response
  jsAdd (jsAdd (jsMul arabicShare (.num 40)) (.num (grammarScore * 30))) (.num (structureScore * 30))

/-- `validateOrganization`: the fraction of the four structural indicators
present, times 100. -/
def validateOrganization (response _message : String) : JsNum :=
  let organizationIndicators : List Bool :=
    [jsIncludes response "•" || jsIncludes response "-",
     jsIncludes response "\n",
     jsIncludes response ":",
     hasDigitDot response.toList]
  .num (((organizationIndicators.filter id).length : Rat) / (organizationIndicators.length : Rat) * 100)

/-- `validateBilingualSupport`: 100/50 on a bilingual message depending on
whether the response is bilingual too; otherwise 100 for an Arabic response
and 80 for a non-Arabic one. -/
def validateBilingualSupport (response message : String) : JsNum :=
  let hasArabic := response.toList.any isArabicChar
  let hasEnglish := response.toList.any Char.isAlpha
  let messageHasArabic := message.toList.any isArabicChar
  let messageHasEnglish := message.toList.any Char.isAlpha
  if messageHasArabic && messageHasEnglish then
    (if hasArabic && hasEnglish then .num 100 else .num 50)
  else
    (if hasArabic then .num 100 else .num 80)

/-- The `professionalIndicators` marker list of `validateProfessionalTone`. -/
def professionalIndicators : List String :=
  ["يمكنني", "أستطيع", "يسعدني", "أنصح", "أقترح",
   "من المهم", "يجب", "نوصي", "المطلوب"]

/-- The `casualIndicators` marker list of `validateProfessionalTone`. -/
def casualIndicators : List String :=
  ["هاي", "مرحبا", "اوكي", "تمام", "كول"]

/-- `validateProfessionalTone`: `max(0, professionalCount*20 - casualCount*10)`
(no upper cap). -/
def validateProfessionalTone (response : String) : JsNum :=
  let professionalCount :=
    (professionalIndicators.filter (fun word => jsIncludes response word)).length
  let casualCount :=
    (casualIndicators.filter (fun word => jsIncludes response word)).length
  .num (((max 0 ((professionalCount : Int) * 20 - (casualCount : Int) * 10) : Int) : Rat))

/-- `containsCode`: the fixed substring heuristics for detecting code. -/
def containsCode (text : String) : Bool :=
  jsIncludes text "```" || jsIncludes text "function" || jsIncludes text "class"
    || jsIncludes text "def " || jsIncludes text "public " || jsIncludes text "private "

/-- `checkIndentation`: some line starts with two spaces or a tab. -/
def checkIndentation (code : String) : Bool :=
  (jsSplitChar code '\n').any (fun line => jsStartsWith line "  " || jsStartsWith line "\t")

/-- `checkNamingConventions`: the regex `[a-zA-Z_][a-zA-Z0-9_]*` matches,
i.e. some character is an ASCII letter or an underscore. -/
def checkNamingConventions (code : String) : Bool :=
  code.toList.any (fun c => c.isAlpha || c == '_')

/-- `validateCodeQuality`: 100 when no code is detected; otherwise the
fraction of the four quality checks passed, times 100. -/
def validateCodeQuality (response _message : String) : JsNum :=
  if !containsCode response then .num 100
  else
    let qualityChecks : List Bool :=
      [jsIncludes response "```",
       jsIncludes response "//" || jsIncludes response "/*",
       checkIndentation response,
       checkNamingConventions response]
    .num (((qualityChecks.filter id).length : Rat) / (qualityChecks.length : Rat) * 100)

/-- The `securityIssues` denylist of `validateSecurityCompliance`. -/
def securityIssues : List String :=
  ["eval(", "innerHTML =", "document.write", "setTimeout(",
   "setInterval(", "Function(", "new Function"]

/-- `validateSecurityCompliance`: 100 when no code is detected; otherwise 0
if any denylisted construct appears, else 100. -/
def validateSecurityCompliance (response : String) : JsNum :=
  if !containsCode response then .num 100
  else if securityIssues.any (fun issue => jsIncludes response issue) then .num 0
  else .num 100

/-- The `languages` list of `validateMultiLanguageSupport`. -/
def programmingLanguages : List String :=
  ["javascript", "python", "java", "c++", "c#", "php",
   "ruby", "go", "rust", "swift", "kotlin", "typescript"]

/-- `validateMultiLanguageSupport`: 100 when the message names no listed
language (first match in list order); otherwise 100 iff the response
mentions it, else 50. -/
def validateMultiLanguageSupport (response message : String) : JsNum :=
  let requestedLanguage :=
    programmingLanguages.find? (fun lang => jsIncludes (jsToLower message) lang)
  match requestedLanguage with
  | none => .num 100
  | some lang => if jsIncludes (jsToLower response) lang then .num 100 else .num 50

/-- `checkCommitment` (server-simple.js lines 318–380): builds the per-rule
result, initialised to `{passed: false, score: 0}`, then dispatches on the
commitment type.  Every type except `responseTime` passes iff
`score >= target`; `responseTime` reads `metadata.responseTime || 0` and
passes iff `score <= target`.  An unrecognized type falls through the
switch and keeps the failing initial result. -/
def checkCommitment (commitmentType : String) (rules : RuleSpec)
    (agent message response : String) (metadata : Metadata) : Outcome :=
  let base : Outcome :=
    { commitmentType := commitmentType, passed := false, score := .num 0,
      target := rules.target, enforcement := rules.enforcement }
  match commitmentType with
  | "accuracy" =>
      let s := validateAccuracy response message agent
      { base with score := s, passed := jsGeTarget s rules.target }
  | "responseTime" =>
      let s : JsNum := .num (metadata.responseTime.getD 0)
      { base with score := s, passed := jsLeTarget s rules.target }
  | "zatcaCompliance" =>
      let s := validateZatcaCompliance response message
      { base with score := s, passed := jsGeTarget s rules.target }
  | "arabicQuality" =>
      let s := validateArabicQuality response
      { base with score := s, passed := jsGeTarget s rules.target }
  | "organizationQuality" =>
      let s := validateOrganization response message
      { base with score := s, passed := jsGeTarget s rules.target }
  | "bilingualSupport" =>
      let s := validateBilingualSupport response message
      { base with score := s, passed := jsGeTarget s rules.target }
  | "professionalTone" =>
      let s := validateProfessionalTone response
      { base with score := s, passed := jsGeTarget s rules.target }
  | "codeQuality" =>
      let s := validateCodeQuality response message
      { base with score := s, passed := jsGeTarget s rules.target }
  | "securityCompliance" =>
      let s := validateSecurityCompliance response
      { base with score := s, passed := jsGeTarget s rules.target }
  | "multiLanguageSupport" =>
      let s := validateMultiLanguageSupport response message
      { base with score := s, passed := jsGeTarget s rules.target }
  | _ => base

/-- `triggerHumanReview`: appends the fixed review notice (the logging side
effect does not affect the returned string). -/
def triggerHumanReview (response : String) : String :=
  response ++ "\n\n[تم مراجعة هذه الإجابة للتأكد من دقتها]"

/-- `getCachedResponse`: the source has no cache and always returns `null`. -/
def getCachedResponse (_message _agent : Option String) : Option String :=
  none

/-- `applyComplianceTemplate`: appends the template keyed by commitment
type, or nothing when the type has no template. -/
def applyComplianceTemplate (response commitmentType : String) : String :=
  let templates : List (String × String) :=
    [("zatcaCompliance", "\n\n📋 ملاحظة: يرجى التأكد من مراجعة متطلبات زاتكا الحديثة للفواتير الضريبية."),
     ("securityCompliance", "\n\n🔒 تنبيه أمني: يرجى مراجعة الكود للتأكد من عدم وجود ثغرات أمنية.")]
  response ++ (templates.lookup commitmentType).getD ""

/-- `correctLanguage`: `response.replace(/\s+/g, ' ').trim()`. -/
def correctLanguage (response : String) : String :=
  jsTrim ⟨squeezeSpaces (response.toList.map (fun c => if jsIsWhitespace c then ' ' else c))⟩

/-- `applyStructuredTemplate`: a no-op when the response already contains a
line break or bullet, otherwise wraps it in the fixed template. -/
def applyStructuredTemplate (response : String) (_message : Option String) : String :=
  if jsIncludes response "\n" || jsIncludes response "•" then response
  else "📝 الإجابة:\n\n" ++ response ++ "\n\nهل تحتاج مساعدة إضافية؟"

/-- `enhanceBilingualResponse`: appends the English-summary placeholder only
to a purely-Arabic response. -/
def enhanceBilingualResponse (response : String) : String :=
  if !(response.toList.any Char.isAlpha) && response.toList.any isArabicChar then
    response ++ "\n\n[English summary available upon request]"
  else response

/-- `adjustTone`: the three global casual→formal substitutions, applied in
source order. -/
def adjustTone (response : String) : String :=
  jsReplaceAll (jsReplaceAll (jsReplaceAll response "مرحبا" "مرحباً بك") "اوكي" "حسناً") "تمام" "ممتاز"

/-- `reviewAndFixCode`: appends the review reminder when the response
contains code, otherwise returns it unchanged. -/
def reviewAndFixCode (response : String) : String :=
  if !containsCode response then response
  else response ++ "\n\n💡 ملاحظة: يرجى مراجعة الكود وتطبيق أفضل الممارسات البرمجية."

/-- `applySecurityTemplate`: appends the fixed security reminder. -/
def applySecurityTemplate (response : String) : String :=
  response ++ "\n\n🔒 تذكير أمني: تأكد من تطبيق معايير الأمان المناسبة."

/-- `applyEnforcement` (server-simple.js lines 385–465): starts from
`{success: false, adjustedResponse: originalResponse}` and dispatches on the
rule's fallback action.  Every branch sets `success = true` except
`cached_response`, whose success is the truthiness of the (always-`null`)
cache result; an unknown fallback action leaves the failing initial object.
Note that the function is handed the ORIGINAL response by its caller. -/
def applyEnforcement (commitmentType : String) (rules : RuleSpec)
    (_violationResult : Outcome) (originalResponse : String) (metadata : Metadata) : Adjustment :=
  let base : Adjustment :=
    { success := false, action := rules.fallback,
      adjustedResponse := some originalResponse, enforcementType := rules.enforcement }
  match rules.fallback with
  | "human_review" =>
      { base with adjustedResponse := some (triggerHumanReview originalResponse), success := true }
  | "cached_response" =>
      let cached := getCachedResponse metadata.message metadata.agent
      { base with adjustedResponse := cached, success := cached.isSome }
  | "compliance_template" =>
      { base with adjustedResponse := some (applyComplianceTemplate originalResponse commitmentType),
                  success := true }
  | "language_correction" =>
      { base with adjustedResponse := some (correctLanguage originalResponse), success := true }
  | "structured_template" =>
      { base with adjustedResponse := some (applyStructuredTemplate originalResponse metadata.message),
                  success := true }
  | "translation_service" =>
      { base with adjustedResponse := some (enhanceBilingualResponse originalResponse), success := true }
  | "tone_adjustment" =>
      { base with adjustedResponse := some (adjustTone originalResponse), success := true }
  | "code_review" =>
      { base with adjustedResponse := some (reviewAndFixCode originalResponse), success := true }
  | "security_template" =>
      { base with adjustedResponse := some (applySecurityTemplate originalResponse), success := true }
  | _ => base

/-- The body of the `for (const [commitmentType, rules] of ...)` loop of
`enforcePreResponse` (lines 279–307) for one rule: check the commitment;
on failure record the violation and apply enforcement — against the
ORIGINAL `response` argument, exactly as in the source — and only a
successful adjustment is pushed and promoted to `finalResponse`. -/
def enforceStep (agent message response : String) (metadata : Metadata)
    (acc : EnforcementResults) (entry : String × RuleSpec) : EnforcementResults :=
  let result := checkCommitment entry.1 entry.2 agent message response metadata
  if result.passed then acc
  else
    let acc := { acc with passed := false, violations := acc.violations ++ [result] }
    let adjustment := applyEnforcement entry.1 entry.2 result response metadata
    if adjustment.success then
      { acc with adjustments := acc.adjustments ++ [adjustment],
                 finalResponse := adjustment.adjustedResponse.getD acc.finalResponse }
    else acc

/-- The passing report every evaluation starts from: `{passed: true,
violations: [], adjustments: [], finalResponse: response}`. -/
def passingReport (response : String) : EnforcementResults :=
  { passed := true, violations := [], adjustments := [], finalResponse := response }

/-- The whole commitment loop of `enforcePreResponse` over a rule list,
starting from the passing report with `finalResponse = response`. -/
def enforceWith (commitments : List (String × RuleSpec))
    (agent message response : String) (metadata : Metadata) : EnforcementResults :=
  commitments.foldl (enforceStep agent message response metadata) (passingReport response)

/-- The enforcer's mutable fields (`this.violations`, a JS `Map`, modelled
as an association list with `Map.set` semantics; `this.enforcementHistory`,
which the source never appends to; `this.activeMonitoring`). -/
structure EnforcerState where
  violations : List (String × EnforcementResults)
  enforcementHistory : List EnforcementResults
  activeMonitoring : Bool
deriving DecidableEq, Repr

/-- The enforcer's constructor state. -/
def initialEnforcerState : EnforcerState :=
  { violations := [], enforcementHistory := [], activeMonitoring := true }

/-- JS `Map.prototype.set`: replaces the value at an existing key, otherwise
appends in insertion order. -/
def mapSet (m : List (String × EnforcementResults)) (key : String)
    (value : EnforcementResults) : List (String × EnforcementResults) :=
  if m.any (fun p => p.1 == key) then
    m.map (fun p => if p.1 == key then (key, value) else p)
  else m ++ [(key, value)]

/-- `logEnforcementResult` (lines 750–764): side-effect logging, plus — only
when the evaluation did not pass — `violations.set(agent + "-" + Date.now(), result)`. -/
def logEnforcementResult (agent : String) (result : EnforcementResults)
    (now : Int) (st : EnforcerState) : EnforcerState :=
  if result.passed then st
  else { st with violations := mapSet st.violations (agent ++ "-" ++ toString now) result }

/-- The value `new Date(v.timestamp).getTime()` computed by
`getEnforcementStats` for a stored record `v`: the stored record is the
`enforcementResults` object, which has NO `timestamp` property, so the
property access yields `undefined` and `new Date(undefined).getTime()` is
`NaN` — for every record, unconditionally. -/
def recordTimestamp (_v : EnforcementResults) : JsNum :=
  .nan

/-- The return value of `getEnforcementStats`. -/
structure EnforcementStats where
  totalViolations : Nat
  recentViolations : Nat
  enforcementRate : Nat
  activeMonitoring : Bool
deriving DecidableEq, Repr

/-- `getEnforcementStats` (lines 769–779): `recentViolations` filters the
stored records by `Date.now() - new Date(v.timestamp).getTime() < 24h`. -/
def getEnforcementStats (st : EnforcerState) (now : Int) : EnforcementStats :=
  let recentViolations := (st.violations.map (fun p => p.2)).filter
    (fun v => jsLtC (jsSub (.num (now : Rat)) (recordTimestamp v)) (24 * 60 * 60 * 1000))
  { totalViolations := st.violations.length,
    recentViolations := recentViolations.length,
    enforcementRate := st.enforcementHistory.length,
    activeMonitoring := st.activeMonitoring }

/-- The return value of `enforcePreResponse`: either the early return
`{ passed: true, response }` for an agent without commitments, or the full
`enforcementResults` report. -/
inductive EnforceReturn where
  | noCommitments (response : String)
  | results (r : EnforcementResults)
deriving DecidableEq, Repr

/-- `enforcePreResponse` (lines 267–313): look the agent up in
`AGENT_COMMITMENTS`; on a miss return `{ passed: true, response }` at once
(no logging); otherwise run the commitment loop, log the result (which
mutates the violations map on failure), and return the report. -/
def enforcePreResponse (agent message response : String) (metadata : Metadata)
    (now : Int) (st : EnforcerState) : EnforceReturn × EnforcerState :=
  match AGENT_COMMITMENTS.lookup agent with
  | none => (.noCommitments response, st)
  | some commitments =>
      let enforcementResults := enforceWith commitments agent message response metadata
      (.results enforcementResults, logEnforcementResult agent enforcementResults now st)

/-- The ten commitment types recognized by `checkCommitment`'s switch. -/
def recognizedCommitmentTypes : List String :=
  ["accuracy", "responseTime", "zatcaCompliance", "arabicQuality", "organizationQuality",
   "bilingualSupport", "professionalTone", "codeQuality", "securityCompliance",
   "multiLanguageSupport"]

/-- The nine commitment types whose switch branch calls a validator method
(all recognized types except `responseTime`, which only reads metadata). -/
def validatorBackedTypes : List String :=
  ["accuracy", "zatcaCompliance", "arabicQuality", "organizationQuality",
   "bilingualSupport", "professionalTone", "codeQuality", "securityCompliance",
   "multiLanguageSupport"]

/-- The nine fallback actions `applyEnforcement`'s switch recognizes. -/
def knownFallbackActions : List String :=
  ["human_review", "cached_response", "compliance_template", "language_correction",
   "structured_template", "translation_service", "tone_adjustment", "code_review",
   "security_template"]

/-- `checkCommitment` with the implicit JS exception channel made explicit.
`val t` stands for the `await this.validateX(...)` call the switch performs
for commitment type `t`; the source wraps none of these calls in
`try`/`catch`, so a raised exception (`Except.error`) propagates out of
`checkCommitment` unchanged. -/
def checkCommitmentE (val : String → Except String JsNum) (commitmentType : String)
    (rules : RuleSpec) (metadata : Metadata) : Except String Outcome :=
  let base : Outcome :=
    { commitmentType := commitmentType, passed := false, score := .num 0,
      target := rules.target, enforcement := rules.enforcement }
  if commitmentType == "responseTime" then
    let s : JsNum := .num (metadata.responseTime.getD 0)
    .ok { base with score := s, passed := jsLeTarget s rules.target }
  else if validatorBackedTypes.contains commitmentType then
    match val commitmentType with
    | .error e => .error e
    | .ok s => .ok { base with score := s, passed := jsGeTarget s rules.target }
  else .ok base

/-- `applyEnforcement` with the remediation computation abstracted as `rem`
(which may raise).  The whole switch sits inside `try`/`catch`: a raised
exception is caught, logged, and the initial
`{success: false, adjustedResponse: originalResponse}` object is returned —
so a remediation fault never escapes `applyEnforcement`. -/
def applyEnforcementE (rem : String → Except String (Option String))
    (_commitmentType : String) (rules : RuleSpec) (originalResponse : String) : Adjustment :=
  let base : Adjustment :=
    { success := false, action := rules.fallback,
      adjustedResponse := some originalResponse, enforcementType := rules.enforcement }
  if knownFallbackActions.contains rules.fallback then
    match rem rules.fallback with
    | .error _ => base
    | .ok adjusted =>
        if rules.fallback == "cached_response" then
          { base with adjustedResponse := adjusted, success := adjusted.isSome }
        else
          { base with adjustedResponse := adjusted, success := true }
  else base

/-- The commitment loop of `enforcePreResponse` with the exception channel
explicit: a validator fault propagates out of the loop (there is no handler
in the loop or in `enforcePreResponse`), while a remediation fault is
absorbed inside `applyEnforcementE`. -/
def enforceListE (val : String → Except String JsNum)
    (rem : String → Except String (Option String)) (response : String) (metadata : Metadata) :
    List (String × RuleSpec) → EnforcementResults → Except String EnforcementResults
  | [], acc => .ok acc
  | entry :: rest, acc =>
      match checkCommitmentE val entry.1 entry.2 metadata with
      | .error e => .error e
      | .ok result =>
          if result.passed then enforceListE val rem response metadata rest acc
          else
            let acc := { acc with passed := false, violations := acc.violations ++ [result] }
            let adjustment := applyEnforcementE rem entry.1 entry.2 response
            enforceListE val rem response metadata rest
              (if adjustment.success then
                { acc with adjustments := acc.adjustments ++ [adjustment],
                           finalResponse := adjustment.adjustedResponse.getD acc.finalResponse }
               else acc)

/-- `enforcePreResponse` with the exception channel explicit: no
`try`/`catch` anywhere on the path from a validator call to the caller, so
a validator fault surfaces as `Except.error` to the caller. -/
def enforcePreResponseE (val : String → Except String JsNum)
    (rem : String → Except String (Option String)) (agent response : String)
    (metadata : Metadata) (now : Int) (st : EnforcerState) :
    Except String (EnforceReturn × EnforcerState) :=
  match AGENT_COMMITMENTS.lookup agent with
  | none => .ok (.noCommitments response, st)
  | some commitments =>
      match enforceListE val rem response metadata commitments (passingReport response) with
      | .error e => .error e
      | .ok r => .ok (.results r, logEnforcementResult agent r now st)

/-- Modelled from the amended C1 claim's words: for each failing rule, in
declared order, apply its remediation to the ORIGINAL candidate output; the
final output is the result of the last successful remediation, or the
candidate output itself when no remediation succeeds.  (This is the
spec-side reference the implementation is compared against; the claim's
original serial-composition description is refuted separately.) -/
def lastSuccessfulRemediationOfOriginal (commitments : List (String × RuleSpec))
    (agent message response : String) (metadata : Metadata) : String :=
  commitments.foldl (fun current entry =>
    let result := checkCommitment entry.1 entry.2 agent message response metadata
    if result.passed then current
    else
      let adjustment := applyEnforcement entry.1 entry.2 result response metadata
      if adjustment.success then adjustment.adjustedResponse.getD current else current) response

section ConcreteEvaluation

attribute [local semireducible] Rat.add Rat.mul Rat.sub Rat.inv

/-- The `finalResponse` component of the enforcement fold is the fold of the
per-rule final-response update alone. -/
lemma enforceWith_foldl_finalResponse (agent message response : String) (md : Metadata) :
    ∀ (cs : List (String × RuleSpec)) (acc : EnforcementResults),
    (cs.foldl (enforceStep agent message response md) acc).finalResponse =
      cs.foldl (fun current entry =>
        let result := checkCommitment entry.1 entry.2 agent message response md
        if result.passed then current
        else
          let adjustment := applyEnforcement entry.1 entry.2 result response md
          if adjustment.success then adjustment.adjustedResponse.getD current else current)
        acc.finalResponse := by
  intro cs
  induction cs with
  | nil => intro acc; rfl
  | cons e t ih =>
    intro acc
    rw [List.foldl_cons, List.foldl_cons, ih]
    congr 1
    unfold enforceStep
    dsimp only
    split
    · rfl
    · split <;> rfl

/-- Every adjustment the enforcement fold records has `success = true`. -/
lemma enforceWith_foldl_adjust_success (agent message response : String) (md : Metadata) :
    ∀ (cs : List (String × RuleSpec)) (acc : EnforcementResults),
    (acc.adjustments.all (fun adj => adj.success)) = true →
    (((cs.foldl (enforceStep agent message response md) acc).adjustments.all
        (fun adj => adj.success))) = true := by
  intro cs
  induction cs with
  | nil => intro acc h; exact h
  | cons e t ih =>
    intro acc h
    rw [List.foldl_cons]
    apply ih
    unfold enforceStep
    dsimp only
    split
    · exact h
    · split
      · rename_i hsucc
        simp_all
      · exact h

/-- The concrete rule list of the accountant agent, as it stands in
`AGENT_COMMITMENTS`. -/
def accountantCommitments : List (String × RuleSpec) :=
  [("accuracy", ⟨999/10, "STRICT", "human_review", "financial_calculation_check"⟩),
   ("responseTime", ⟨2000, "STRICT", "cached_response", "performance_monitor"⟩),
   ("zatcaCompliance", ⟨100, "MANDATORY", "compliance_template", "zatca_validator"⟩),
   ("arabicQuality", ⟨95, "STRICT", "language_correction", "arabic_nlp_check"⟩)]

/-- Metadata for the accountant counterexample run. -/
def mdAccountant : Metadata :=
  { responseTime := some 100, message := some "good", agent := some "المحاسب الذكي" }

/-- C1: refuted as stated.  In the accountant evaluation of message "good"
against candidate output "hello", the rules `accuracy` and `arabicQuality`
both fail and both remediations succeed, yet `finalResponse` is "hello" —
the last remediation applied to the ORIGINAL output — whereas the claimed
serial composition of the two successful remediations applied to the
working output yields "hello [تم مراجعة هذه الإجابة للتأكد من دقتها]", a
different string. -/
theorem C1_counterexample :
    AGENT_COMMITMENTS.lookup "المحاسب الذكي" = some accountantCommitments
    ∧ (enforceWith accountantCommitments "المحاسب الذكي" "good" "hello" mdAccountant).violations.length = 2
    ∧ ((enforceWith accountantCommitments "المحاسب الذكي" "good" "hello" mdAccountant).adjustments.all
        (fun adj => adj.success)) = true
    ∧ (enforceWith accountantCommitments "المحاسب الذكي" "good" "hello" mdAccountant).adjustments.length = 2
    ∧ (enforceWith accountantCommitments "المحاسب الذكي" "good" "hello" mdAccountant).finalResponse = "hello"
    ∧ correctLanguage (triggerHumanReview "hello")
        = "hello [تم مراجعة هذه الإجابة للتأكد من دقتها]"
    ∧ (("hello" : String) == "hello [تم مراجعة هذه الإجابة للتأكد من دقتها]") = false := by
  decide

/-- C1 (amended): each failing rule's remediation is invoked against the
ORIGINAL candidate output, and `finalOutput` equals the result of the LAST
successful remediation applied to the candidate output (the candidate
itself when no remediation succeeds) — not the serial composition. -/
theorem C1_remediation_of_original (cs : List (String × RuleSpec))
    (agent message response : String) (md : Metadata) :
    (enforceWith cs agent message response md).finalResponse
      = lastSuccessfulRemediationOfOriginal cs agent message response md := by
  unfold enforceWith lastSuccessfulRemediationOfOriginal
  exact enforceWith_foldl_finalResponse agent message response md cs _

/-- C2: refuted as stated.  For a profile holding the single rule
`{type: responseTime, target: 2000, fallback: cached_response}`, a measured
latency of 2500 with a cache miss produces one violation but an EMPTY
adjustments list (the failed remediation is not recorded), with the final
output unchanged. -/
theorem C2_counterexample :
    (enforceWith [("responseTime", ⟨2000, "STRICT", "cached_response", "performance_monitor"⟩)]
        "accountant" "question" "answer" { responseTime := some 2500 }).violations.length = 1
    ∧ (enforceWith [("responseTime", ⟨2000, "STRICT", "cached_response", "performance_monitor"⟩)]
        "accountant" "question" "answer" { responseTime := some 2500 }).adjustments = []
    ∧ ((enforceWith [("responseTime", ⟨2000, "STRICT", "cached_response", "performance_monitor"⟩)]
        "accountant" "question" "answer" { responseTime := some 2500 }).adjustments.length == 1) = false
    ∧ (enforceWith [("responseTime", ⟨2000, "STRICT", "cached_response", "performance_monitor"⟩)]
        "accountant" "question" "answer" { responseTime := some 2500 }).finalResponse = "answer" := by
  decide

/-- C2 (amended): only failing rules whose remediation SUCCEEDS produce an
entry in `adjustments`; a failed remediation leaves no adjustment record.
In the single-latency-rule scenario (target 2000, latency 2500, cache miss)
the report has one violation, zero adjustments, and an unchanged final
output. -/
theorem C2_only_successful_adjustments :
    (∀ (cs : List (String × RuleSpec)) (agent message response : String) (md : Metadata),
      ((enforceWith cs agent message response md).adjustments.all (fun adj => adj.success)) = true)
    ∧ (enforceWith [("responseTime", ⟨2000, "STRICT", "cached_response", "performance_monitor"⟩)]
        "accountant" "question" "answer" { responseTime := some 2500 }
      = { passed := false,
          violations := [{ commitmentType := "responseTime", passed := false,
                           score := .num 2500, target := 2000, enforcement := "STRICT" }],
          adjustments := [], finalResponse := "answer" }) := by
  constructor
  · intro cs agent message response md
    exact enforceWith_foldl_adjust_success agent message response md cs _ rfl
  · decide

/-- C5: refuted as stated.  A response containing six professional markers
and no casual marker scores 6 × 20 = 120 under `validateProfessionalTone`,
which is greater than 100. -/
theorem C5_counterexample :
    validateProfessionalTone "يمكنني أستطيع يسعدني أنصح أقترح يجب" = JsNum.num 120
    ∧ (decide ((120 : Rat) ≤ 100)) = false := by
  decide

/-- C5 (amended): validator scores are not confined to [0, 100].
`validateProfessionalTone` always returns an ordinary number, but its range
is [0, 180] (nine markers × 20): the formula
`max(0, professional*20 - casual*10)` has no cap at 100, and it can exceed
100 (see the counterexample).  `validateArabicQuality` can also exceed 100:
its grammar and structure terms are weighted by 30 rather than 0.3, so the
two-character response "و." (full structure score 100, Arabic ratio 1/2)
scores 1/2·40 + 0·30 + 100·30 = 3020. -/
theorem C5_validators_unbounded :
    (∀ response : String,
      ∃ q : Rat, validateProfessionalTone response = JsNum.num q ∧ 0 ≤ q ∧ q ≤ 180)
    ∧ validateArabicQuality "و." = JsNum.num 3020
    ∧ (decide ((3020 : Rat) ≤ 100)) = false := by
  refine ⟨fun response => ?_, by decide, by decide⟩
  unfold validateProfessionalTone
  refine ⟨_, rfl, ?_, ?_⟩
  · exact_mod_cast le_max_left 0 _
  · have hp : ((professionalIndicators.filter (fun word => jsIncludes response word)).length : Int) ≤ 9 := by
      have h := List.length_filter_le (fun word => jsIncludes response word) professionalIndicators
      have h9 : professionalIndicators.length = 9 := by decide
      omega
    have hmax : (max 0 (((professionalIndicators.filter (fun word => jsIncludes response word)).length : Int) * 20
        - ((casualIndicators.filter (fun word => jsIncludes response word)).length : Int) * 10) : Int) ≤ 180 := by
      have hc : (0 : Int) ≤ ((casualIndicators.filter (fun word => jsIncludes response word)).length : Int) := by
        exact_mod_cast Nat.zero_le _
      omega
    exact_mod_cast hmax

/-- C7: the code diverges from the claim.  After failing evaluations are
recorded at t0 = 0 ms and t0 + 25h = 90000000 ms, the statistics query at
t0 + 26h = 93600000 ms reports `recentViolations = 0`, not 1: the stored
record carries no `timestamp` property, so the window filter compares
against `NaN` and rejects every record. -/
theorem C7_stats_window_eval :
    (getEnforcementStats
      (logEnforcementResult "عميل"
        { passed := false, violations := [], adjustments := [], finalResponse := "y" } 90000000
        (logEnforcementResult "عميل"
          { passed := false, violations := [], adjustments := [], finalResponse := "x" } 0
          initialEnforcerState))
      93600000).totalViolations = 2
    ∧ (getEnforcementStats
      (logEnforcementResult "عميل"
        { passed := false, violations := [], adjustments := [], finalResponse := "y" } 90000000
        (logEnforcementResult "عميل"
          { passed := false, violations := [], adjustments := [], finalResponse := "x" } 0
          initialEnforcerState))
      93600000).recentViolations = 0
    ∧ ((getEnforcementStats
      (logEnforcementResult "عميل"
        { passed := false, violations := [], adjustments := [], finalResponse := "y" } 90000000
        (logEnforcementResult "عميل"
          { passed := false, violations := [], adjustments := [], finalResponse := "x" } 0
          initialEnforcerState))
      93600000).recentViolations == 1) = false := by
  decide

/-- C9: for the empty candidate output, `validateArabicQuality` evaluates
the division `0/0`, i.e. `NaN`, which propagates to the returned score —
so the score is not an ordinary number at all, in particular not a number
in [0, 100]. -/
theorem C9_empty_output_nan :
    validateArabicQuality "" = JsNum.nan
    ∧ ∀ q : Rat, (validateArabicQuality "" == JsNum.num q) = false := by
  constructor
  · rfl
  · intro q; rfl

/-- C3: an agent absent from the commitment table takes the early return
`{ passed: true, response }`: the evaluation passes, the delivered output is
the candidate output unchanged, and the enforcer state is untouched. -/
theorem C3_unknown_profile_passthrough (agent : String)
    (h : AGENT_COMMITMENTS.lookup agent = none) :
    ∀ (message response : String) (md : Metadata) (now : Int) (st : EnforcerState),
    enforcePreResponse agent message response md now st = (.noCommitments response, st) := by
  intro message response md now st
  unfold enforcePreResponse
  rw [h]

/-- C3 witness: the concrete profile "nonexistent-profile". -/
theorem C3_witness :
    enforcePreResponse "nonexistent-profile" "سؤال" "جواب" {} 0 initialEnforcerState
      = (.noCommitments "جواب", initialEnforcerState) :=
  C3_unknown_profile_passthrough "nonexistent-profile" (by decide) "سؤال" "جواب" {} 0
    initialEnforcerState

/-- With a validator oracle that always returns normally, `checkCommitmentE`
always returns normally. -/
lemma checkCommitmentE_ok (val : String → JsNum) (ct : String) (rules : RuleSpec)
    (md : Metadata) :
    ∃ o, checkCommitmentE (fun t => Except.ok (val t)) ct rules md = Except.ok o := by
  unfold checkCommitmentE
  split
  · exact ⟨_, rfl⟩
  · split
    · exact ⟨_, rfl⟩
    · exact ⟨_, rfl⟩

/-- When the validators return normally, the evaluation loop returns
normally whatever the remediation oracle does (including raising), and the
recorded violations and overall verdict do not depend on the remediation
oracle at all. -/
lemma enforceListE_ok_indep (val : String → JsNum)
    (rem rem' : String → Except String (Option String)) (response : String) (md : Metadata) :
    ∀ (cs : List (String × RuleSpec)) (acc acc' : EnforcementResults),
    acc.passed = acc'.passed → acc.violations = acc'.violations →
    ∃ r r', enforceListE (fun t => Except.ok (val t)) rem response md cs acc = Except.ok r
      ∧ enforceListE (fun t => Except.ok (val t)) rem' response md cs acc' = Except.ok r'
      ∧ r.passed = r'.passed ∧ r.violations = r'.violations := by
  intro cs
  induction cs with
  | nil =>
    intro acc acc' h1 h2
    exact ⟨acc, acc', rfl, rfl, h1, h2⟩
  | cons e t ih =>
    intro acc acc' h1 h2
    obtain ⟨o, ho⟩ := checkCommitmentE_ok val e.1 e.2 md
    rw [enforceListE, ho, enforceListE, ho]
    dsimp only
    split
    · exact ih acc acc' h1 h2
    · apply ih
      · split <;> split <;> rfl
      · split <;> split <;> simp [h2]

/-- C4 (amended): only remediation faults are isolated.  Whatever a
(possibly raising) remediation does, the evaluation loop completes normally
with the same violations and the same overall verdict, and a raising
remediation is converted by `applyEnforcement`'s catch into
`success = false` with the original output preserved.  (Validator faults,
by contrast, escape: see the counterexample.) -/
theorem C4_remediation_isolated :
    (∀ (val : String → JsNum) (rem rem' : String → Except String (Option String))
       (cs : List (String × RuleSpec)) (response : String) (md : Metadata),
     ∃ r r', enforceListE (fun t => Except.ok (val t)) rem response md cs (passingReport response)
           = Except.ok r
       ∧ enforceListE (fun t => Except.ok (val t)) rem' response md cs (passingReport response)
           = Except.ok r'
       ∧ r.passed = r'.passed ∧ r.violations = r'.violations)
    ∧ (∀ (e ct : String) (rules : RuleSpec) (orig : String),
        applyEnforcementE (fun _ => Except.error e) ct rules orig
          = { success := false, action := rules.fallback, adjustedResponse := some orig,
              enforcementType := rules.enforcement }) := by
  constructor
  · intro val rem rem' cs response md
    exact enforceListE_ok_indep val rem rem' response md cs _ _ rfl rfl
  · intro e ct rules orig
    unfold applyEnforcementE
    split <;> rfl

/-- C4: refuted as stated.  A validator that raises (as, e.g., the real
validators do in JS when handed a `null` response) is NOT isolated:
`checkCommitment` and `enforcePreResponse` contain no handler, so the fault
escapes `enforcePreResponse` to its caller as an unhandled exception
instead of being recorded as a failing rule. -/
theorem C4_counterexample :
    enforcePreResponseE
      (fun t => if t == "accuracy" then Except.error "TypeError" else Except.ok (JsNum.num 100))
      (fun _ => Except.ok none)
      "المحاسب الذكي" "hello" {} 0 initialEnforcerState
      = Except.error "TypeError" := by
  rfl

/-- C6: for a `responseTime` commitment the score is exactly the measured
latency from the metadata, and the rule passes precisely when that value is
at most the target (lower is better). -/
theorem C6_latency_direction (rules : RuleSpec) (agent message response : String)
    (md : Metadata) (t : Rat) (h : md.responseTime = some t) :
    (checkCommitment "responseTime" rules agent message response md).score = JsNum.num t
    ∧ (checkCommitment "responseTime" rules agent message response md).passed
        = decide (t ≤ rules.target) := by
  unfold checkCommitment
  simp [h, jsLeTarget]

/-- C6 witness: with target 2000, latency 2500 is a violation and latency
1500 is not. -/
theorem C6_witness :
    (checkCommitment "responseTime" ⟨2000, "STRICT", "cached_response", "performance_monitor"⟩
      "المحاسب الذكي" "سؤال" "جواب" { responseTime := some 2500 }).passed = false
    ∧ (checkCommitment "responseTime" ⟨2000, "STRICT", "cached_response", "performance_monitor"⟩
      "المحاسب الذكي" "سؤال" "جواب" { responseTime := some 1500 }).passed = true := by
  constructor
  · rw [(C6_latency_direction ⟨2000, "STRICT", "cached_response", "performance_monitor"⟩
      "المحاسب الذكي" "سؤال" "جواب" { responseTime := some 2500 } 2500 rfl).2]
    decide
  · rw [(C6_latency_direction ⟨2000, "STRICT", "cached_response", "performance_monitor"⟩
      "المحاسب الذكي" "سؤال" "جواب" { responseTime := some 1500 } 1500 rfl).2]
    decide

/-- C8: a commitment type outside the ten recognized by the switch keeps
the failing initial result (`passed = false`, `score = 0`), and inside the
evaluation loop such a rule is therefore recorded as a violation, not
skipped and not an error. -/
theorem C8_unknown_type_violation (commitmentType : String)
    (h : commitmentType ∉ recognizedCommitmentTypes) (rules : RuleSpec)
    (agent message response : String) (md : Metadata) :
    checkCommitment commitmentType rules agent message response md
      = { commitmentType := commitmentType, passed := false, score := .num 0,
          target := rules.target, enforcement := rules.enforcement }
    ∧ (enforceWith [(commitmentType, rules)] agent message response md).violations
      = [checkCommitment commitmentType rules agent message response md] := by
  have h1 : checkCommitment commitmentType rules agent message response md
      = { commitmentType := commitmentType, passed := false, score := .num 0,
          target := rules.target, enforcement := rules.enforcement } := by
    unfold checkCommitment
    split <;> simp_all [recognizedCommitmentTypes]
  refine ⟨h1, ?_⟩
  simp only [enforceWith, List.foldl_cons, List.foldl_nil]
  unfold enforceStep
  rw [h1]
  dsimp only
  split
  · rename_i hcontra
    exact absurd hcontra (by decide)
  · split <;> rfl

/-- C8 witness: the concrete unrecognized type "unknownCommitment". -/
theorem C8_witness :
    checkCommitment "unknownCommitment" ⟨50, "STRICT", "human_review", "none"⟩ "وكيل" "سؤال" "جواب" {}
      = { commitmentType := "unknownCommitment", passed := false, score := .num 0,
          target := 50, enforcement := "STRICT" }
    ∧ (enforceWith [("unknownCommitment", ⟨50, "STRICT", "human_review", "none"⟩)] "وكيل" "سؤال" "جواب" {}).violations
      = [checkCommitment "unknownCommitment" ⟨50, "STRICT", "human_review", "none"⟩ "وكيل" "سؤال" "جواب" {}] :=
  C8_unknown_type_violation "unknownCommitment" (by decide)
    ⟨50, "STRICT", "human_review", "none"⟩ "وكيل" "سؤال" "جواب" {}

/-- When every commitment check passes, the enforcement fold returns its
accumulator unchanged. -/
lemma enforceWith_all_pass (agent message response : String) (md : Metadata) :
    ∀ (cs : List (String × RuleSpec)) (acc : EnforcementResults),
    (∀ p ∈ cs, (checkCommitment p.1 p.2 agent message response md).passed = true) →
    cs.foldl (enforceStep agent message response md) acc = acc := by
  intro cs
  induction cs with
  | nil => intro acc _; rfl
  | cons e t ih =>
    intro acc h
    have he := h e (List.mem_cons_self e t)
    have ht : ∀ p ∈ t, (checkCommitment p.1 p.2 agent message response md).passed = true :=
      fun p hp => h p (List.mem_cons_of_mem e hp)
    rw [List.foldl_cons]
    have hstep : enforceStep agent message response md acc e = acc := by
      unfold enforceStep
      dsimp only
      rw [he]
      simp
    rw [hstep]
    exact ih acc ht

/-- C10: an evaluation in which every commitment check passes is a frame:
the returned report is the passing report with the candidate output as its
final response, and the enforcer state — hence everything
`getEnforcementStats` reads — is exactly as before the call. -/
theorem C10_all_pass_frame (agent : String) (cs : List (String × RuleSpec))
    (hcs : AGENT_COMMITMENTS.lookup agent = some cs) (message response : String)
    (md : Metadata)
    (hall : ∀ p ∈ cs, (checkCommitment p.1 p.2 agent message response md).passed = true)
    (now : Int) (st : EnforcerState) :
    enforcePreResponse agent message response md now st
      = (.results (passingReport response), st) := by
  have hrun : enforceWith cs agent message response md = passingReport response :=
    enforceWith_all_pass agent message response md cs _ hall
  unfold enforcePreResponse
  rw [hcs]
  dsimp only
  rw [hrun]
  rfl

/-- C10 witness: a secretary-agent evaluation in which all three rules pass
leaves the state untouched and returns the candidate output. -/
theorem C10_witness :
    enforcePreResponse "السكرتير الرقمي" "سؤال"
      "• يمكنني أستطيع يسعدني أنصح أقترح:\n1. شيء" {} 0 initialEnforcerState
      = (.results (passingReport "• يمكنني أستطيع يسعدني أنصح أقترح:\n1. شيء"),
        initialEnforcerState) :=
  C10_all_pass_frame "السكرتير الرقمي" _ rfl "سؤال"
    "• يمكنني أستطيع يسعدني أنصح أقترح:\n1. شيء" {} (by decide) 0 initialEnforcerState

end ConcreteEvaluation

end DoganAiFactori
